import Mathlib

/-!
Verification of the `wizardkids/weather` command-line weather tool.

The program (src/weather.py, src/utilities/rdatetime.py) is embedded shallowly:
JSON payloads become an inductive `Json` type, Python exceptions become an
error type threaded through `Except`, dictionary subscripts and `try ... except
KeyError` blocks become explicit combinators, and the arithmetic
unit-conversion helpers become functions over `ℚ`.  Machine floats in the
source are modelled by exact rationals; the claims under study concern control
flow, field fallbacks, list shapes and exact conversion factors, none of which
depend on floating-point rounding of the inputs.
-/

namespace Weather

/-- Python exceptions that the embedded fragments of weather.py can raise.
`unboundLocal` stands for `UnboundLocalError` (a variable read before any
branch assigned it). -/
inductive PyErr where
  | keyError
  | indexError
  | typeError
  | attributeError
  | unboundLocal
deriving DecidableEq

/-- JSON-like values, as produced by `requests.Response.json()`.  Numbers are
modelled as rationals; Python `True`/`False` are kept separate because
`isinstance(True, int)` holds and booleans behave as 1/0 in arithmetic. -/
inductive Json where
  | null
  | num (q : ℚ)
  | str (s : String)
  | bool (b : Bool)
  | arr (xs : List Json)
  | obj (fields : List (String × Json))

/-- Python `d[k]` for a string key `k` (weather.py accesses fields this way).
On a dict a missing key raises `KeyError`; on any non-dict value a string
subscript raises `TypeError` (for a string receiver, `s['k']` is also a
`TypeError` since string indices must be integers). -/
def Json.subscript : Json → String → Except PyErr Json
  | .obj fs, k =>
      match fs.lookup k with
      | some v => .ok v
      | none => .error .keyError
  | _, _ => .error .typeError

/-- Python `d[i]` for an integer literal index (used as `data['data'][0]` and
`geo_data[0]`).  On a list an out-of-range index raises `IndexError`; on a
dict an absent integer key raises `KeyError`; on other values `TypeError`. -/
def Json.index : Json → ℕ → Except PyErr Json
  | .arr xs, i =>
      match xs.get? i with
      | some v => .ok v
      | none => .error .indexError
  | .obj _, _ => .error .keyError
  | _, _ => .error .typeError

/-- Character-list containment used to model Python `substr in s`. -/
def chStarts : List Char → List Char → Bool
  | [], _ => true
  | _ :: _, [] => false
  | a :: p, b :: xs => a = b && chStarts p xs

/-- `p` occurs as a contiguous run inside `xs` (Python `p in s` on strings). -/
def chWithin : List Char → List Char → Bool
  | p, [] => p.isEmpty
  | p, x :: rest => chStarts p (x :: rest) || chWithin p rest

/-- Python `k in d` (the membership test on line 1403/1411 of weather.py).
On a dict it tests the keys, on a list it tests element equality with the
string `k`, on a string it is a substring test, and on any other value it
raises `TypeError`. -/
def Json.hasKey : Json → String → Except PyErr Bool
  | .obj fs, k => .ok (fs.lookup k).isSome
  | .arr xs, k =>
      .ok (xs.any fun x => match x with | .str s => s = k | _ => false)
  | .str s, k => .ok (chWithin k.data s.data)
  | _, _ => .error .typeError

/-- Coerce a JSON value to a number as Python arithmetic would: numbers pass
through, booleans count as 1/0 (`isinstance(True, int)` holds), and anything
else raises `TypeError` when it meets `*`, `/` or `round`. -/
def Json.asNum : Json → Except PyErr ℚ
  | .num q => .ok q
  | .bool b => .ok (if b then 1 else 0)
  | _ => .error .typeError

/-- `try: x = <body> except KeyError: x = <deflt>` — only `KeyError` is
caught; every other exception propagates. -/
def tryKey {α : Type} (body : Except PyErr α) (deflt : α) : Except PyErr α :=
  match body with
  | .error .keyError => .ok deflt
  | other => other

@[simp] theorem ok_bind {α β : Type} (a : α) (f : α → Except PyErr β) :
    (Except.ok a : Except PyErr α) >>= f = f a := rfl

@[simp] theorem tryKey_ok {α : Type} (a : α) (d : α) :
    tryKey (.ok a) d = .ok a := rfl

@[simp] theorem tryKey_keyError {α : Type} (d : α) :
    tryKey (α := α) (.error .keyError) d = .ok d := rfl

/-! ## Unit conversions (weather.py §"UTILITY FUNCTIONS") -/

/-- weather.py line 2143: `convert_pressure(p) = p * 0.750062` (hPa → mmHg). -/
def convert_pressure (p : ℚ) : ℚ := p * (750062 / 1000000)

/-- weather.py line 2108: `convert_visibility(v) = v * 0.00062137`. -/
def convert_visibility (v : ℚ) : ℚ := v * (62137 / 100000000)

/-- The mm → inch factor 0.03937008 used inline throughout weather.py. -/
def mmToInch : ℚ := 3937008 / 100000000

/-- Python 3 `round` to the nearest integer, ties to even (banker's
rounding), on an exact rational. -/
def pyRound (q : ℚ) : ℤ :=
  let f := ⌊q⌋
  let r := q - (f : ℚ)
  if r < 1 / 2 then f
  else if 1 / 2 < r then f + 1
  else if Even f then f else f + 1

/-- The eight compass names of weather.py line 2137. -/
def directions : List String :=
  ["north", "north east", "east", "south east", "south", "south west",
   "west", "north west"]

/-- weather.py line 2123 `wind_direction_txt`: index the `directions` list at
`round(degrees / 45) % 8`.  The Lean `%` on `ℤ` is Euclidean (non-negative
remainder for the positive modulus 8), exactly like Python `%`.  List access
uses the default `""` which the bounds theorem shows is never taken. -/
def wind_direction_txt (degrees : ℚ) : String :=
  let index : ℤ := pyRound (degrees / 45) % 8
  directions.getD index.toNat ""

/-! ## Field extraction (weather.py §"EXTRACT NEEDED INFORMATION") -/

/-- The rdatetime-based formatting helpers that `extract_current_weather_vars`
and `extract_single_day_weather_vars` apply to numeric timestamps
(`ts_to_datetime`/`change_timezones`/`strftime` compositions and
`ts_to_datestr` at fixed format strings).  For any numeric timestamp these
Python calls are total and return a string, which is the only property the
extraction layer relies on, so they are abstracted as string-valued functions
and every theorem about extraction is proved for arbitrary `RdFns`. -/
structure RdFns where
  /-- line 1342-1344: day-of-week plus `"%B %d, %Y, %I:%M %p"` of the local
  datetime for `current.dt`. -/
  dowDateOfTs : ℚ → String
  /-- line 1529-1530: the single-day variant of the date line. -/
  dowDateOfTsSD : ℚ → String
  /-- lines 1381/1386: `ts_to_datestr(ts, fmt="%Y-%m-%d %I:%M %p")`. -/
  tsToDatestrLong : ℚ → String
  /-- lines 1576/1581: `ts_to_datestr(ts, fmt="%I:%M %p")`. -/
  tsToDatestrShort : ℚ → String

/-- The `except KeyError` default of the `date` field in
`extract_current_weather_vars` (line 1346-1347):
`datetime(1970,1,1,12,0,0).strftime('%Y-%m-%d %I:%M %p')`. -/
def epochNoonLong : String := "1970-01-01 12:00 PM"

/-- The `except KeyError` default of the `date` field in
`extract_single_day_weather_vars` (line 1532-1534):
`datetime(1970,1,1,12,0,0).strftime('%Y-%m-%d %H:%M')`. -/
def epochNoonShort : String := "1970-01-01 12:00"

/-- `data['current'][k]` — the nested subscript at the head of each
try-block of `extract_current_weather_vars`. -/
def curKey (data : Json) (k : String) : Except PyErr Json := do
  let c ← data.subscript "current"
  c.subscript k

/-- `data['data'][0]` — the common prefix of every try-block of
`extract_single_day_weather_vars`. -/
def sdItem (data : Json) : Except PyErr Json := do
  let d ← data.subscript "data"
  d.index 0

/-- `data['data'][0][k]`. -/
def sdKey (data : Json) (k : String) : Except PyErr Json := do
  let item ← sdItem data
  item.subscript k

/-- A try-block that stores the raw JSON value of a field, with a
`KeyError` fallback. -/
def rawField (src : Except PyErr Json) (deflt : Json) : Except PyErr Json :=
  tryKey src deflt

/-- A try-block that feeds the field's numeric value into a function `f`
(a conversion or a timestamp formatter), with a `KeyError` fallback. -/
def numField {α : Type} (src : Except PyErr Json) (f : ℚ → α) (deflt : α) :
    Except PyErr α :=
  tryKey (do let v ← src; let q ← v.asNum; pure (f q)) deflt

/-- The `rain`/`snow` block of `extract_current_weather_vars`
(lines 1403-1417).  It is **not** inside a try-block: `data["current"]` is
subscripted bare, a sub-object lacking `'1h'` raises `KeyError`, and a value
that is neither a dict nor a number leaves the variable unassigned, raising
`UnboundLocalError` at the `return`. -/
def precipBlock (data : Json) (key : String) : Except PyErr ℚ := do
  let c ← data.subscript "current"
  let present ← c.hasKey key
  if present then
    let r ← c.subscript key
    match r with
    | .obj fs =>
        match fs.lookup "1h" with
        | some v => do let q ← v.asNum; pure (q * mmToInch)
        | none => .error .keyError
    | .num q => pure (q * mmToInch)
    | .bool b => pure ((if b then (1 : ℚ) else 0) * mmToInch)
    | _ => .error .unboundLocal
  else
    pure 0

/-- The tuple returned by `extract_current_weather_vars` (line 1421).  Fields
that Python stores raw keep type `Json`; fields produced by a conversion or a
formatter have their Python result type. -/
structure CurrentVars where
  date : String
  weather : Json
  feels_like : Json
  humidity : Json
  pressure : ℚ
  temperature : Json
  visibility : Json
  wind_direction : String
  wind_speed : Json
  sunrise : String
  sunset : String
  gust : Json
  uvi : Json
  dew_point : Json
  rain : ℚ
  snow : ℚ

/-- weather.py lines 1328-1421, `extract_current_weather_vars`: one
`try ... except KeyError` per field, each with its hard-coded fallback,
followed by the bare rain/snow block. -/
def extract_current_weather_vars (rd : RdFns) (data : Json) :
    Except PyErr CurrentVars := do
  let date ← numField (curKey data "dt") rd.dowDateOfTs epochNoonLong
  let weather ← rawField
    (do let w ← curKey data "weather"
        let w0 ← w.index 0
        w0.subscript "description") (.str "")
  let feels_like ← rawField (curKey data "feels_like") (.num 0)
  let humidity ← rawField (curKey data "humidity") (.num 0)
  let pressure ← numField (curKey data "pressure") convert_pressure 0
  let temperature ← rawField (curKey data "temp") (.num 0)
  let visibility ← rawField (curKey data "visibility") (.num 0)
  let wind_direction ← numField (curKey data "wind_deg") wind_direction_txt "X"
  let wind_speed ← rawField (curKey data "wind_speed") (.num 0)
  let sunrise ← numField (curKey data "sunrise") rd.tsToDatestrLong "0.0"
  let sunset ← numField (curKey data "sunset") rd.tsToDatestrLong "0.0"
  let gust ← rawField (curKey data "wind_gust") (.num 0)
  let uvi ← rawField (curKey data "uvi") (.num 0)
  let dew_point ← rawField (curKey data "dew_point") (.num 0)
  let rain ← precipBlock data "rain"
  let snow ← precipBlock data "snow"
  pure ⟨date, weather, feels_like, humidity, pressure, temperature,
        visibility, wind_direction, wind_speed, sunrise, sunset, gust, uvi,
        dew_point, rain, snow⟩

/-- The tuple returned by `extract_single_day_weather_vars` (line 1608). -/
structure SingleDayVars where
  date : String
  weather : Json
  feels_like : Json
  humidity : Json
  pressure : ℚ
  temperature : Json
  max_temp : Json
  min_temp : Json
  visibility : Json
  wind_direction : String
  wind_speed : Json
  sunrise : String
  sunset : String
  gust : Json
  uvi : Json
  dew_point : Json
  rain : Json
  snow : Json

/-- weather.py lines 1515-1608, `extract_single_day_weather_vars`: the same
per-field try-blocks over `data['data'][0]`; rain/snow are
`data['data'][0][k]["1h"]` inside the try, so only a `KeyError` (missing key
at either level) falls back to `0.0`. -/
def extract_single_day_weather_vars (rd : RdFns) (data : Json) :
    Except PyErr SingleDayVars := do
  let date ← numField (sdKey data "dt") rd.dowDateOfTsSD epochNoonShort
  let weather ← rawField
    (do let w ← sdKey data "weather"
        let w0 ← w.index 0
        w0.subscript "description") (.str "")
  let feels_like ← rawField (sdKey data "feels_like") (.num 0)
  let humidity ← rawField (sdKey data "humidity") (.num 0)
  let pressure ← numField (sdKey data "pressure") convert_pressure 0
  let temperature ← rawField (sdKey data "temp") (.num 0)
  let max_temp ← rawField (sdKey data "temp_max") (.num 0)
  let min_temp ← rawField (sdKey data "temp_min") (.num 0)
  let visibility ← rawField (sdKey data "visibility") (.num 0)
  let wind_direction ← numField (sdKey data "wind_deg") wind_direction_txt "X"
  let wind_speed ← rawField (sdKey data "wind_speed") (.num 0)
  let sunrise ← numField (sdKey data "sunrise") rd.tsToDatestrShort "0.0"
  let sunset ← numField (sdKey data "sunset") rd.tsToDatestrShort "0.0"
  let gust ← rawField (sdKey data "wind_gust") (.num 0)
  let uvi ← rawField (sdKey data "uvi") (.num 0)
  let dew_point ← rawField (sdKey data "dew_point") (.num 0)
  let rain ← rawField (do let r ← sdKey data "rain"; r.subscript "1h") (.num 0)
  let snow ← rawField (do let s ← sdKey data "snow"; s.subscript "1h") (.num 0)
  pure ⟨date, weather, feels_like, humidity, pressure, temperature, max_temp,
        min_temp, visibility, wind_direction, wind_speed, sunrise, sunset,
        gust, uvi, dew_point, rain, snow⟩

/-- Python `x * 100` on a JSON value (`day['pop'] * 100`, line 1500): numbers
and booleans multiply, strings and lists repeat, `None` and dicts raise
`TypeError`. -/
def mul100 : Json → Except PyErr Json
  | .num q => .ok (.num (q * 100))
  | .bool b => .ok (.num ((if b then (1 : ℚ) else 0) * 100))
  | .str s => .ok (.str (String.join (List.replicate 100 s)))
  | .arr xs => .ok (.arr (List.flatten (List.replicate 100 xs)))
  | _ => .error .typeError

/-- weather.py lines 1465-1512, `extract_daily_data`: append eight values to
the incoming `daily` list (which the caller seeds with the day label), each
guarded by `try ... except KeyError` with defaults `"--"` or `0`. -/
def extract_daily_data (day : Json) (daily : List Json) :
    Except PyErr (List Json) := do
  let summary ← rawField (day.subscript "summary") (.str "--")
  let tmin ← rawField
    (do let t ← day.subscript "temp"; t.subscript "min") (.num 0)
  let tmax ← rawField
    (do let t ← day.subscript "temp"; t.subscript "max") (.num 0)
  let humidity ← rawField (day.subscript "humidity") (.num 0)
  let wind_speed ← rawField (day.subscript "wind_speed") (.num 0)
  let pop ← tryKey (do let p ← day.subscript "pop"; mul100 p) (.num 0)
  let rain ← rawField (day.subscript "rain") (.num 0)
  let snow ← rawField (day.subscript "snow") (.num 0)
  pure (daily ++ [summary, tmin, tmax, humidity, wind_speed, pop, rain, snow])

/-! ## HTTP fetches and their status handling (weather.py §"DOWNLOAD DATA") -/

/-- An HTTP response as the program sees it: a status code and a parsed JSON
body (`r.status_code`, `r.json()`). -/
structure HttpResp where
  status : ℕ
  body : Json

/-- Outcome of a fetch wrapper: either the process printed a message and
called `exit()`, or a value was returned to the caller. -/
inductive FetchResult (α : Type) where
  | exit (msg : String)
  | ok (v : α)
deriving DecidableEq

/-- The message printed by the one-call/time-machine/day-summary fetchers
before `exit()` (weather.py lines 1203, 1309, 418; rich markup elided). -/
def unreachableMsg : String := "Could not reach https://api.openweathermap.org."

/-- weather.py lines 1184-1211 `download_data` (the one-call endpoint): on a
non-200 status print and `exit()` before touching the body; otherwise return
`r.json()`. -/
def download_data (resp : HttpResp) : FetchResult Json :=
  if resp.status ≠ 200 then .exit unreachableMsg else .ok resp.body

/-- weather.py lines 1290-1315 `get_single_day_data` (the time-machine
endpoint): same status handling as `download_data`. -/
def get_single_day_data (resp : HttpResp) : FetchResult Json :=
  if resp.status ≠ 200 then .exit unreachableMsg else .ok resp.body

/-- weather.py lines 415-421, the day-summary fetch inlined in the
`daily_summary` command: same status handling. -/
def day_summary_fetch (resp : HttpResp) : FetchResult Json :=
  if resp.status ≠ 200 then .exit unreachableMsg else .ok resp.body

/-- The message printed by `get_location` before `exit()` (line 2034;
markup and the apostrophe-bearing tail elided). -/
def badCoordsMsg : String := "We encountered an error using those coordinates"

/-- weather.py lines 2015-2045 `get_location` (reverse geocoding): the
response status is never consulted; `r.json()` is parsed immediately, and only
a `KeyError` while reading `geo_data[0]["name"]`/`["state"]` leads to the
printed message and `exit()`.  Any other exception (e.g. `IndexError` on an
empty result list) propagates. -/
def get_location (resp : HttpResp) : Except PyErr (FetchResult (Json × Json)) :=
  match (do let g0 ← resp.body.index 0
            let city ← g0.subscript "name"
            let g0' ← resp.body.index 0
            let state ← g0'.subscript "state"
            pure (city, state) : Except PyErr (Json × Json)) with
  | .error .keyError => .ok (.exit badCoordsMsg)
  | .error e => .error e
  | .ok cs => .ok (.ok cs)

/-- The message printed by `get_lat_long` before `exit()` (line 2066,
abridged as above). -/
def badCityMsg : String := "We encountered an error using that city and state"

/-- The generator `next((item for item in geo_data if item['state'] == state),
None)` of `get_lat_long` (line 2070), iterating a JSON array.  `item['state']`
may raise; `== state` compares with the string `state` (equality across
Python types is `False`). -/
def findState : List Json → String → Except PyErr (Option Json)
  | [], _ => .ok none
  | x :: rest, state => do
      let s ← x.subscript "state"
      let ok : Bool := match s with | .str t => t = state | _ => false
      if ok then pure (some x) else findState rest state

/-- weather.py lines 2048-2080 `get_lat_long` (forward geocoding): again no
status check.  A `KeyError` from the generator, or no matching item, prints
and exits; otherwise `item['lat']`/`item['lon']` are read outside any try
block.  Iterating a non-list body: a dict iterates its keys (strings), a
string iterates its characters, anything else raises `TypeError`. -/
def get_lat_long (resp : HttpResp) (state : String) :
    Except PyErr (FetchResult (Json × Json)) :=
  let items : Except PyErr (List Json) :=
    match resp.body with
    | .arr xs => .ok xs
    | .obj fs => .ok (fs.map fun kv => .str kv.1)
    | .str s => .ok (s.data.map fun c => .str (String.mk [c]))
    | _ => .error .typeError
  match items with
  | .error e => .error e
  | .ok xs =>
      match findState xs state with
      | .error .keyError => .ok (.exit badCityMsg)
      | .error e => .error e
      | .ok none => .ok (.exit badCityMsg)
      | .ok (some item) =>
          match (do let la ← item.subscript "lat"
                    let lo ← item.subscript "lon"
                    pure (la, lo) : Except PyErr (Json × Json)) with
          | .error e => .error e
          | .ok ll => .ok (.ok ll)

/-! ## Coordinate validation and command control flow -/

/-- A Python value bound to `-lat`/`-lon` at a `coord_arguments_ok` call
site.  click coerces command-line input to `float`, but the function also
guards against other types reaching it. -/
inductive PyVal where
  | float (q : ℚ)
  | int (n : ℤ)
  | str (s : String)
  | pynone
deriving DecidableEq

/-- weather.py lines 2083-2105 `coord_arguments_ok`: `False` unless both
arguments are `float` instances with `-90 <= lat <= 90` and
`-180 <= lon <= 180`. -/
def coord_arguments_ok : PyVal → PyVal → Bool
  | .float lat, .float lon =>
      decide (-90 ≤ lat) && decide (lat ≤ 90) &&
      decide (-180 ≤ lon) && decide (lon ≤ 180)
  | _, _ => false

/-- An observable action of a command, in order: an HTTP request to a named
endpoint, a message printed to the terminal, or the hand-off into report
generation (whose own fetches and printing are outside the scope of the
coordinate-validation claim). -/
inductive Act where
  | fetch (endpoint : String)
  | print (msg : String)
  | report
deriving DecidableEq

/-- The error text printed by `hourly_forecast`/`rain_forecast`/`alerts` when
`coord_arguments_ok` fails (lines 261, 303, 359; abridged). -/
def coordErrMsg : String :=
  "We encountered an error with latitude or longitude: non-numbers or out of range"

/-- weather.py lines 227-262 `hourly_forecast`, for coordinate (not
city/state) invocations: validate first; on success fetch the one-call
endpoint and print the report, on failure print the error message and return
without any network call. -/
def hourly_forecast_cmd (lat lon : PyVal) : List Act :=
  if coord_arguments_ok lat lon then
    [.fetch "api.openweathermap.org/data/3.0/onecall", .report]
  else
    [.print coordErrMsg]

/-- weather.py lines 271-304 `rain_forecast`: the same validate-then-fetch
shape. -/
def rain_forecast_cmd (lat lon : PyVal) : List Act :=
  if coord_arguments_ok lat lon then
    [.print "Expected rainfall in the next hour",
     .fetch "api.openweathermap.org/data/3.0/onecall", .report]
  else
    [.print coordErrMsg]

/-- weather.py lines 313-360 `alerts`: validate, then reverse-geocode and
fetch. -/
def alerts_cmd (lat lon : PyVal) : List Act :=
  if coord_arguments_ok lat lon then
    [.fetch "api.openweathermap.org/geo/1.0/reverse",
     .fetch "api.openweathermap.org/data/3.0/onecall", .report]
  else
    [.print coordErrMsg]

/-- weather.py lines 174-217 `coords`: no validation at all — the body is
`get_location(latitude, longitude)` (a reverse-geocoding HTTP request)
followed by `get_weather_report`, whatever the coordinates are. -/
def coords_cmd (_lat _lon : PyVal) : List Act :=
  [.fetch "api.openweathermap.org/geo/1.0/reverse", .report]

/-- weather.py lines 371-428 `daily_summary`: no coordinate validation — the
day-summary HTTP request is issued directly. -/
def daily_summary_cmd (_lat _lon : PyVal) : List Act :=
  [.fetch "api.openweathermap.org/data/3.0/onecall/day_summary",
   .fetch "api.openweathermap.org/geo/1.0/reverse", .report]

/-! ## Date-string parsing (rdatetime.py `datestr_to_tzdatetime`) -/

/-- Python `str.split(sep)` on character lists (auxiliary accumulator form). -/
def pysplitAux (sep : Char) : List Char → List Char → List (List Char)
  | [], acc => [acc.reverse]
  | c :: rest, acc =>
      if c = sep then acc.reverse :: pysplitAux sep rest []
      else pysplitAux sep rest (c :: acc)

/-- Python `str.split(sep)`. -/
def pysplit (sep : Char) (s : List Char) : List (List Char) :=
  pysplitAux sep s []

/-- A run of decimal digits, as a number. -/
def parseNatChars (cs : List Char) : Option ℕ :=
  if cs matches [] then none
  else if cs.all fun c => ('0' ≤ c && c ≤ '9') then
    some (cs.foldl (fun acc c => 10 * acc + (c.toNat - '0'.toNat)) 0)
  else none

/-- A calendar date-time with no timezone attached (Python naive
`datetime`, to minute precision — the granularity weather.py uses). -/
structure NaiveDT where
  year : ℕ
  month : ℕ
  day : ℕ
  hour : ℕ
  minute : ℕ
deriving DecidableEq

/-- The numeric `Y-M-D` date component. -/
def parseYMD (cs : List Char) : Option (ℕ × ℕ × ℕ) :=
  match pysplit '-' cs with
  | [a, b, c] => do
      let y ← parseNatChars a
      let m ← parseNatChars b
      let d ← parseNatChars c
      if 1 ≤ m ∧ m ≤ 12 ∧ 1 ≤ d ∧ d ≤ 31 then some (y, m, d) else none
  | _ => none

/-- The 24-hour `H:M` time component. -/
def parseHM (cs : List Char) : Option (ℕ × ℕ) :=
  match pysplit ':' cs with
  | [a, b] => do
      let h ← parseNatChars a
      let m ← parseNatChars b
      if h ≤ 23 ∧ m ≤ 59 then some (h, m) else none
  | _ => none

/-- A date-only token: the time of day defaults to `00:00`. -/
def parseDateOnly (d : List Char) : Option NaiveDT :=
  match parseYMD d with
  | some (y, m, dd) => some ⟨y, m, dd, 0, 0⟩
  | none => none

/-- A date token followed by a time token. -/
def parseDateTime (d t : List Char) : Option NaiveDT :=
  match parseYMD d, parseHM t with
  | some (y, m, dd), some (h, mi) => some ⟨y, m, dd, h, mi⟩
  | _, _ => none

/-- Modelled from the spec: rdatetime.py delegates parsing to the external
`dateutil` parser, which is not part of this repository.  Per the spec and
rdatetime's own docstring, a recognizable date with no time component parses
with the time defaulting to `00:00` ("If there is no time within the
date_str, then 00:00 is added"), and a string with no recognizable date
content fails (`ParserError`).  The model covers the dash-separated numeric
`"Y-M-D"` form, optionally followed by a space and a 24-hour `"H:M"` time —
the format the program's own commands document — and fails (`none`,
standing for `ParserError`) on anything else. -/
def parse_datestr (s : String) : Option NaiveDT :=
  match pysplit ' ' s.data with
  | [d] => parseDateOnly d
  | [d, t] => parseDateTime d t
  | _ => none

/-- rdatetime.py line 58: the configured default timezone. -/
def DEFAULT_TZ : String := "US/Eastern"

/-- A timezone-aware datetime as `datestr_to_tzdatetime` returns it: the
parsed wall-clock fields localized to (tagged with) a named timezone. -/
structure TZNamed where
  dt : NaiveDT
  tzName : String
deriving DecidableEq

/-- The message `datestr_to_tzdatetime` prints when `parser.parse` raises
`ParserError` (rdatetime.py line 95). -/
def cannotParseMsg (s : String) : String :=
  "Cannot parse a string that is not a date: " ++ s

/-- rdatetime.py lines 62-105 `datestr_to_tzdatetime`, with its print
behaviour made explicit: the `ParserError` is caught *inside* the function,
which prints the message and returns `None`; a naive parse result is
localized to the target (default) timezone.  Returns the printed lines
together with the `Optional[datetime]` result. -/
def datestr_to_tzdatetime_run (s : String) : List String × Option TZNamed :=
  match parse_datestr s with
  | none => ([cannotParseMsg s], none)
  | some dt => ([], some ⟨dt, DEFAULT_TZ⟩)

/-- The value-level view of `datestr_to_tzdatetime` (its return value only). -/
def datestr_to_tzdatetime (s : String) : Option TZNamed :=
  (datestr_to_tzdatetime_run s).2

/-- weather.py lines 521-522 in `single_day`: a date argument of length
exactly 10 gets `" 12:00"` appended before parsing; any other argument is
parsed as given. -/
def single_day_normalize (date : String) : String :=
  if date.length = 10 then date ++ " 12:00" else date

/-- weather.py lines 521-525 in `single_day`: normalize the date argument,
parse it, then `int(rd.datetime_to_ts(localdatetime))`.  When parsing failed,
`datestr_to_tzdatetime` has already printed its message and returned `None`,
and `datetime_to_ts(None)` evaluates `None.tzinfo`, raising
`AttributeError`.  Returns the printed lines and either the timezone-aware
datetime handed to the timestamp conversion or the uncaught exception. -/
def single_day_date_step (date : String) :
    List String × Except PyErr TZNamed :=
  let date' := single_day_normalize date
  match datestr_to_tzdatetime_run date' with
  | (msgs, none) => (msgs, .error .attributeError)
  | (msgs, some dt) => (msgs, .ok dt)

/-! ## Instants, offsets and timestamps (rdatetime.py) -/

/-- A Python `datetime` for timestamp arithmetic: the wall-clock reading in
seconds on a linear calendar scale (seconds since the epoch *as displayed*),
plus `tzinfo` — `none` for a naive datetime, `some off` for an aware one
whose `utcoffset()` is `off` seconds.  `datetime.timestamp()` on an aware
value is exactly `wallclock - offset`. -/
structure PyDateTime where
  wallclock : ℤ
  tzinfo : Option ℤ
deriving DecidableEq

/-- A timezone: the UTC offset (seconds) it assigns to an absolute instant
(`astimezone`/`fromtimestamp` direction) and the offset it assigns to a bare
wall-clock reading (`pytz.localize` direction).  Fixed-offset zones make the
two constant; DST zones make them genuine functions. -/
structure Timezone where
  offsetAt : ℤ → ℤ
  offsetAtWall : ℤ → ℤ

/-- rdatetime.py lines 243-277 `datetime_to_ts`: a naive datetime is first
localized to `source_timezone`, then `datetime.timestamp()` is returned —
the UTC-epoch-seconds value `wallclock - utcoffset`. -/
def datetime_to_ts (dt : PyDateTime) (source_timezone : Timezone) : ℤ :=
  match dt.tzinfo with
  | some off => dt.wallclock - off
  | none => dt.wallclock - source_timezone.offsetAtWall dt.wallclock

/-- rdatetime.py lines 322-355 `ts_to_datetime`:
`datetime.fromtimestamp(ts, tz=pytz.utc).astimezone(target_tz)` — the
instant `ts` displayed in the target timezone, carrying that timezone's
offset. -/
def ts_to_datetime (ts : ℤ) (target_timezone : Timezone) : PyDateTime :=
  ⟨ts + target_timezone.offsetAt ts, some (target_timezone.offsetAt ts)⟩

/-- rdatetime.py lines 193-240 `change_timezones`: localize if naive, then
`astimezone(target_tz)` — i.e. re-display the same instant in the target
timezone. -/
def change_timezones (dt : PyDateTime) (source_tz target_tz : Timezone) :
    PyDateTime :=
  let aware : PyDateTime :=
    match dt.tzinfo with
    | some _ => dt
    | none => ⟨dt.wallclock, some (source_tz.offsetAtWall dt.wallclock)⟩
  ts_to_datetime (datetime_to_ts aware source_tz) target_tz

/-! ## Terminal formatting fragments (weather.py print functions) -/

/-- The number printed by a Python `f'{x:.1f}'` field: `x` rounded to one
decimal place (ties to even, as `format` rounds). -/
def round1 (q : ℚ) : ℚ := (pyRound (q * 10) : ℚ) / 10

/-- The text a Python `{x:0.1f}` (or `{x:.1f}`) format field produces. -/
def fmtFixed1 (q : ℚ) : String :=
  let n : ℤ := pyRound (q * 10)
  let sign : String := if n < 0 then "-" else ""
  sign ++ toString (n.natAbs / 10) ++ "." ++ toString (n.natAbs % 10)

/-- weather.py line 1636 in `print_current_weather`: the function receives
the already-extracted `pressure` value and computes
`pressure_mmhg = convert_pressure(pressure)` — a second application of the
hPa→mmHg factor — before displaying `{pressure_mmhg:.1f} mmHg`. -/
def print_current_weather_pressure_mmhg (pressure : ℚ) : ℚ :=
  convert_pressure pressure

/-- weather.py line 1935 in `print_single_day`: the same second
`convert_pressure` application on the already-converted value. -/
def print_single_day_pressure_mmhg (pressure : ℚ) : ℚ :=
  convert_pressure pressure

/-- weather.py lines 1950-1953, the precipitation section of
`print_single_day`: a snow line printed when `snow > 0`, and a line labelled
`rain:` printed when `rain > 0` whose interpolated value is `{snow:0.1f}` —
the snow variable, not the rain variable. -/
def print_single_day_precip (rain snow : ℚ) : List String :=
  (if snow > 0 then
     ["              [dark_orange]snow:[/] [light_steel_blue1]" ++
       fmtFixed1 snow ++ " in.[/]"]
   else []) ++
  (if rain > 0 then
     ["              [dark_orange]rain:[/] [light_steel_blue1]" ++
       fmtFixed1 snow ++ " in.[/]"]
   else [])

/-- The line the rain branch of `print_single_day` prints, as a function of
the value it interpolates. -/
def rainLineOf (v : ℚ) : String :=
  "              [dark_orange]rain:[/] [light_steel_blue1]" ++
    fmtFixed1 v ++ " in.[/]"

/-! ## Reference (spec-side) description of extraction

The amended fallback claim is proved as a refinement: under explicit
hypotheses on the payload shape, the Except-threaded extraction equals a
total per-field reference function.  The `...Ok` booleans spell out exactly
which payload shapes avoid the uncaught exceptions identified by the
counterexamples. -/

/-- The field at `k` is absent, or is a value Python arithmetic/`round`/
`fromtimestamp` accepts as a number (number or bool). -/
def numOk (c : List (String × Json)) (k : String) : Bool :=
  match c.lookup k with
  | none => true
  | some (.num _) => true
  | some (.bool _) => true
  | some _ => false

/-- `weather` is absent, or a non-empty array whose first element is an
object containing `description` (otherwise `[0]`/`['description']` raise
`IndexError`/`TypeError`, which the `except KeyError` does not catch). -/
def weatherOk (c : List (String × Json)) : Bool :=
  match c.lookup "weather" with
  | none => true
  | some (.arr (Json.obj fs :: _)) => (fs.lookup "description").isSome
  | some _ => false

/-- A present JSON value Python arithmetic accepts as a number. -/
def numLike : Option Json → Bool
  | some (.num _) => true
  | some (.bool _) => true
  | _ => false

/-- Shapes of `rain`/`snow` the bare block of
`extract_current_weather_vars` handles without raising: absent, numeric, or
a sub-object whose `'1h'` is numeric. -/
def precipOkCur (c : List (String × Json)) (k : String) : Bool :=
  match c.lookup k with
  | none => true
  | some (.num _) => true
  | some (.bool _) => true
  | some (.obj fs) => numLike (fs.lookup "1h")
  | some _ => false

/-- Shapes of `rain`/`snow` the single-day try-block handles: absent or a
sub-object (a scalar raises `TypeError` at `['1h']`). -/
def precipOkSD (c : List (String × Json)) (k : String) : Bool :=
  match c.lookup k with
  | none => true
  | some (.obj _) => true
  | some _ => false

/-- Reference value of a raw field: the stored value, or the fallback. -/
def rawRef (c : List (String × Json)) (k : String) (d : Json) : Json :=
  (c.lookup k).getD d

/-- Reference value of a converted/formatted numeric field. -/
def numRef {α : Type} (c : List (String × Json)) (k : String)
    (f : ℚ → α) (d : α) : α :=
  match c.lookup k with
  | some (.num q) => f q
  | some (.bool b) => f (if b then 1 else 0)
  | _ => d

/-- Reference value of the `weather ... description` path. -/
def weatherRef (c : List (String × Json)) : Json :=
  match c.lookup "weather" with
  | some (.arr (Json.obj fs :: _)) => (fs.lookup "description").getD (.str "")
  | _ => .str ""

/-- The mm→inch product of a numeric JSON value (0 otherwise). -/
def precipOf : Option Json → ℚ
  | some (.num q) => q * mmToInch
  | some (.bool b) => (if b then (1 : ℚ) else 0) * mmToInch
  | _ => 0

/-- Reference value of the current-weather rain/snow block. -/
def precipRefCur (c : List (String × Json)) (k : String) : ℚ :=
  match c.lookup k with
  | some (.num q) => q * mmToInch
  | some (.bool b) => (if b then (1 : ℚ) else 0) * mmToInch
  | some (.obj fs) => precipOf (fs.lookup "1h")
  | _ => 0

/-- Reference value of the single-day rain/snow field (raw, no mm→inch). -/
def precipRefSD (c : List (String × Json)) (k : String) : Json :=
  match c.lookup k with
  | some (.obj fs) => (fs.lookup "1h").getD (.num 0)
  | _ => .num 0

/-- The full reference result of `extract_current_weather_vars` on a payload
whose `current` object has fields `c`. -/
def refCurrent (rd : RdFns) (c : List (String × Json)) : CurrentVars :=
  ⟨numRef c "dt" rd.dowDateOfTs epochNoonLong,
   weatherRef c,
   rawRef c "feels_like" (.num 0),
   rawRef c "humidity" (.num 0),
   numRef c "pressure" convert_pressure 0,
   rawRef c "temp" (.num 0),
   rawRef c "visibility" (.num 0),
   numRef c "wind_deg" wind_direction_txt "X",
   rawRef c "wind_speed" (.num 0),
   numRef c "sunrise" rd.tsToDatestrLong "0.0",
   numRef c "sunset" rd.tsToDatestrLong "0.0",
   rawRef c "wind_gust" (.num 0),
   rawRef c "uvi" (.num 0),
   rawRef c "dew_point" (.num 0),
   precipRefCur c "rain",
   precipRefCur c "snow"⟩

/-- The full reference result of `extract_single_day_weather_vars` on a
payload whose `data[0]` object has fields `c`. -/
def refSingleDay (rd : RdFns) (c : List (String × Json)) : SingleDayVars :=
  ⟨numRef c "dt" rd.dowDateOfTsSD epochNoonShort,
   weatherRef c,
   rawRef c "feels_like" (.num 0),
   rawRef c "humidity" (.num 0),
   numRef c "pressure" convert_pressure 0,
   rawRef c "temp" (.num 0),
   rawRef c "temp_max" (.num 0),
   rawRef c "temp_min" (.num 0),
   rawRef c "visibility" (.num 0),
   numRef c "wind_deg" wind_direction_txt "X",
   rawRef c "wind_speed" (.num 0),
   numRef c "sunrise" rd.tsToDatestrShort "0.0",
   numRef c "sunset" rd.tsToDatestrShort "0.0",
   rawRef c "wind_gust" (.num 0),
   rawRef c "uvi" (.num 0),
   rawRef c "dew_point" (.num 0),
   precipRefSD c "rain",
   precipRefSD c "snow"⟩

@[simp] theorem error_bind {α β : Type} (e : PyErr)
    (f : α → Except PyErr β) :
    (Except.error e : Except PyErr α) >>= f = .error e := rfl

@[simp] theorem subscript_obj (fs : List (String × Json)) (k : String) :
    (Json.obj fs).subscript k =
      (match fs.lookup k with
       | some v => .ok v
       | none => .error .keyError) := rfl

@[simp] theorem hasKey_obj (fs : List (String × Json)) (k : String) :
    (Json.obj fs).hasKey k = .ok (fs.lookup k).isSome := rfl

theorem curKey_eq {data : Json} {c : List (String × Json)}
    (h : data.subscript "current" = .ok (.obj c)) (k : String) :
    curKey data k = (Json.obj c).subscript k := by
  unfold curKey
  rw [h]
  rfl

theorem sdKey_eq {data : Json} {c : List (String × Json)} {rest : List Json}
    (h : data.subscript "data" = .ok (.arr (.obj c :: rest))) (k : String) :
    sdKey data k = (Json.obj c).subscript k := by
  unfold sdKey sdItem
  rw [h]
  rfl

theorem rawField_obj (c : List (String × Json)) (k : String) (d : Json) :
    rawField ((Json.obj c).subscript k) d = .ok (rawRef c k d) := by
  unfold rawField rawRef
  cases hl : c.lookup k <;> simp [hl, tryKey]

theorem numField_obj {α : Type} (c : List (String × Json)) (k : String)
    (f : ℚ → α) (d : α) (hok : numOk c k = true) :
    numField ((Json.obj c).subscript k) f d = .ok (numRef c k f d) := by
  unfold numOk at hok
  unfold numField numRef
  cases hl : c.lookup k with
  | none => simp [hl, tryKey]
  | some v =>
      rw [hl] at hok
      cases v <;> simp_all [tryKey, Json.asNum]

theorem descPath_obj (c : List (String × Json)) (hok : weatherOk c = true) :
    rawField
      (do let w ← (Json.obj c).subscript "weather"
          let w0 ← w.index 0
          w0.subscript "description") (.str "") = .ok (weatherRef c) := by
  unfold weatherOk at hok
  unfold rawField weatherRef
  cases hl : c.lookup "weather" with
  | none => simp [hl, tryKey]
  | some v =>
      rw [hl] at hok
      match v with
      | .arr (Json.obj fs :: rest) =>
          have hok2 : (fs.lookup "description").isSome = true := hok
          obtain ⟨dv, hd⟩ := Option.isSome_iff_exists.mp hok2
          simp [hl, Json.index, hd, tryKey]
      | .null | .num _ | .str _ | .bool _ | .obj _ => simp at hok
      | .arr [] => simp at hok
      | .arr (Json.null :: _) | .arr (Json.num _ :: _) | .arr (Json.str _ :: _)
      | .arr (Json.bool _ :: _) | .arr (Json.arr _ :: _) => simp at hok

theorem precipCur_eval {data : Json} {c : List (String × Json)}
    (h : data.subscript "current" = .ok (.obj c)) (k : String)
    (hok : precipOkCur c k = true) :
    precipBlock data k = .ok (precipRefCur c k) := by
  unfold precipOkCur at hok
  unfold precipBlock precipRefCur
  rw [h]
  cases hl : c.lookup k with
  | none => simp [hl, tryKey, pure, Except.pure]
  | some v =>
      rw [hl] at hok
      match v with
      | .num q => simp [hl, pure, Except.pure]
      | .bool b => simp [hl, pure, Except.pure]
      | .obj fs =>
          have hok2 : numLike (fs.lookup "1h") = true := hok
          cases h1 : fs.lookup "1h" with
          | none =>
              rw [h1] at hok2
              simp [numLike] at hok2
          | some w =>
              rw [h1] at hok2
              match w with
              | .num q =>
                  simp [hl, h1, Json.asNum, precipOf, pure, Except.pure]
              | .bool b =>
                  simp [hl, h1, Json.asNum, precipOf, pure, Except.pure]
              | .null | .str _ | .arr _ | .obj _ => simp [numLike] at hok2
      | .null | .str _ | .arr _ => simp at hok

theorem precipSD_obj (c : List (String × Json)) (k : String)
    (hok : precipOkSD c k = true) :
    rawField
      (do let r ← (Json.obj c).subscript k
          r.subscript "1h") (.num 0) = .ok (precipRefSD c k) := by
  unfold precipOkSD at hok
  unfold rawField precipRefSD
  cases hl : c.lookup k with
  | none => simp [hl, tryKey]
  | some v =>
      rw [hl] at hok
      match v with
      | .obj fs =>
          simp only [hl, subscript_obj, ok_bind]
          cases h1 : fs.lookup "1h" <;> simp [h1, tryKey]
      | .null | .num _ | .str _ | .bool _ | .arr _ => simp at hok

/-- `temp` in a per-day forecast payload is absent or a sub-object
(`day['temp']['min']` on a scalar raises `TypeError`, uncaught). -/
def tempOk (c : List (String × Json)) : Bool :=
  match c.lookup "temp" with
  | none => true
  | some (.obj _) => true
  | some _ => false

/-- Reference value of `day['temp'][k]` with the `KeyError` fallback `0`. -/
def tempRef (c : List (String × Json)) (k : String) : Json :=
  match c.lookup "temp" with
  | some (.obj fs) => (fs.lookup k).getD (.num 0)
  | _ => .num 0

/-- `pop`, when present, is a value `* 100` accepts (anything except `None`
and a dict). -/
def popOk (c : List (String × Json)) : Bool :=
  match c.lookup "pop" with
  | none => true
  | some (.num _) => true
  | some (.bool _) => true
  | some (.str _) => true
  | some (.arr _) => true
  | some _ => false

/-- Reference value of `day['pop'] * 100` with the `KeyError` fallback. -/
def popRef (c : List (String × Json)) : Json :=
  match c.lookup "pop" with
  | some (.num q) => .num (q * 100)
  | some (.bool b) => .num ((if b then (1 : ℚ) else 0) * 100)
  | some (.str s) => .str (String.join (List.replicate 100 s))
  | some (.arr xs) => .arr (List.flatten (List.replicate 100 xs))
  | _ => .num 0

/-- The eight reference values `extract_daily_data` appends, in order:
summary, min temp, max temp, humidity, wind speed, pop·100, rain, snow. -/
def refDaily (c : List (String × Json)) : List Json :=
  [rawRef c "summary" (.str "--"),
   tempRef c "min",
   tempRef c "max",
   rawRef c "humidity" (.num 0),
   rawRef c "wind_speed" (.num 0),
   popRef c,
   rawRef c "rain" (.num 0),
   rawRef c "snow" (.num 0)]

theorem tempPath_obj (c : List (String × Json)) (k : String)
    (hok : tempOk c = true) :
    rawField
      (do let t ← (Json.obj c).subscript "temp"
          t.subscript k) (.num 0) = .ok (tempRef c k) := by
  unfold tempOk at hok
  unfold rawField tempRef
  cases hl : c.lookup "temp" with
  | none => simp [hl, tryKey]
  | some v =>
      rw [hl] at hok
      match v with
      | .obj fs =>
          simp only [hl, subscript_obj, ok_bind]
          cases h1 : fs.lookup k <;> simp [h1, tryKey]
      | .null | .num _ | .str _ | .bool _ | .arr _ => simp at hok

theorem popPath_obj (c : List (String × Json)) (hok : popOk c = true) :
    tryKey
      (do let p ← (Json.obj c).subscript "pop"
          mul100 p) (.num 0) = .ok (popRef c) := by
  unfold popOk at hok
  unfold popRef
  cases hl : c.lookup "pop" with
  | none => simp [hl, tryKey]
  | some v =>
      rw [hl] at hok
      match v with
      | .num q => simp [hl, mul100, tryKey]
      | .bool b => simp [hl, mul100, tryKey]
      | .str s => simp [hl, mul100, tryKey]
      | .arr xs => simp [hl, mul100, tryKey]
      | .null | .obj _ => simp at hok

/-- A concrete instance of the abstracted rdatetime formatters, used only to
instantiate witnesses and counterexamples (the theorems hold for every
`RdFns`). -/
def rdFnsW : RdFns :=
  ⟨fun _ => "ts", fun _ => "ts", fun _ => "ts", fun _ => "ts"⟩

/-! ## Claim C1 — extraction fallbacks -/

/-- C1 counterexample: extraction does **not** tolerate every payload shape.
On the empty payload (the parent key `current` absent), every
`try ... except KeyError` block falls back, but the bare rain/snow block
(weather.py line 1403) subscripts `data["current"]` outside any try-block
and the `KeyError` escapes, so `extract_current_weather_vars` raises instead
of returning typed defaults. -/
theorem C1_missing_parent_raises :
    extract_current_weather_vars rdFnsW (Json.obj []) = .error .keyError := by
  rfl

/-- C1 (amended): extraction never raises *provided* the parent object is
present (`current` for the current-weather extractor; a non-empty `data`
array of objects for the single-day extractor) and each present field has
the payload's documented shape (numeric timestamps/pressure/wind
direction/sunrise/sunset, a well-formed `weather` array, and rain/snow that
are absent, numeric, or a sub-object with a numeric `'1h'` — for the
single-day extractor, absent or a sub-object).  Under those hypotheses each
extractor equals its per-field reference function, every absent field
getting its hard-coded fallback (`0.0`/`0`-like values, `""`, plus `"X"`
for wind direction, the string `"0.0"` for sunrise/sunset and an epoch date
string); in particular an absent `wind_gust` yields `0.0`. -/
theorem C1_extraction_fallbacks_amended :
    (∀ (rd : RdFns) (data : Json) (c : List (String × Json)),
      data.subscript "current" = .ok (.obj c) →
      numOk c "dt" = true → numOk c "pressure" = true →
      numOk c "wind_deg" = true → numOk c "sunrise" = true →
      numOk c "sunset" = true → weatherOk c = true →
      precipOkCur c "rain" = true → precipOkCur c "snow" = true →
      extract_current_weather_vars rd data = .ok (refCurrent rd c) ∧
        (c.lookup "wind_gust" = none → (refCurrent rd c).gust = .num 0)) ∧
    (∀ (rd : RdFns) (data : Json) (c : List (String × Json))
       (rest : List Json),
      data.subscript "data" = .ok (.arr (.obj c :: rest)) →
      numOk c "dt" = true → numOk c "pressure" = true →
      numOk c "wind_deg" = true → numOk c "sunrise" = true →
      numOk c "sunset" = true → weatherOk c = true →
      precipOkSD c "rain" = true → precipOkSD c "snow" = true →
      extract_single_day_weather_vars rd data = .ok (refSingleDay rd c) ∧
        (c.lookup "wind_gust" = none → (refSingleDay rd c).gust = .num 0)) := by
  constructor
  · intro rd data c h hdt hpres hwd hsr hss hw hr hs
    refine ⟨?_, ?_⟩
    · unfold extract_current_weather_vars
      simp only [curKey_eq h]
      rw [numField_obj c "dt" rd.dowDateOfTs epochNoonLong hdt,
          descPath_obj c hw,
          rawField_obj c "feels_like" (.num 0),
          rawField_obj c "humidity" (.num 0),
          numField_obj c "pressure" convert_pressure 0 hpres,
          rawField_obj c "temp" (.num 0),
          rawField_obj c "visibility" (.num 0),
          numField_obj c "wind_deg" wind_direction_txt "X" hwd,
          rawField_obj c "wind_speed" (.num 0),
          numField_obj c "sunrise" rd.tsToDatestrLong "0.0" hsr,
          numField_obj c "sunset" rd.tsToDatestrLong "0.0" hss,
          rawField_obj c "wind_gust" (.num 0),
          rawField_obj c "uvi" (.num 0),
          rawField_obj c "dew_point" (.num 0),
          precipCur_eval h "rain" hr,
          precipCur_eval h "snow" hs]
      rfl
    · intro hg
      simp [refCurrent, rawRef, hg]
  · intro rd data c rest h hdt hpres hwd hsr hss hw hr hs
    refine ⟨?_, ?_⟩
    · unfold extract_single_day_weather_vars
      simp only [sdKey_eq h]
      rw [numField_obj c "dt" rd.dowDateOfTsSD epochNoonShort hdt,
          descPath_obj c hw,
          rawField_obj c "feels_like" (.num 0),
          rawField_obj c "humidity" (.num 0),
          numField_obj c "pressure" convert_pressure 0 hpres,
          rawField_obj c "temp" (.num 0),
          rawField_obj c "temp_max" (.num 0),
          rawField_obj c "temp_min" (.num 0),
          rawField_obj c "visibility" (.num 0),
          numField_obj c "wind_deg" wind_direction_txt "X" hwd,
          rawField_obj c "wind_speed" (.num 0),
          numField_obj c "sunrise" rd.tsToDatestrShort "0.0" hsr,
          numField_obj c "sunset" rd.tsToDatestrShort "0.0" hss,
          rawField_obj c "wind_gust" (.num 0),
          rawField_obj c "uvi" (.num 0),
          rawField_obj c "dew_point" (.num 0),
          precipSD_obj c "rain" hr,
          precipSD_obj c "snow" hs]
      rfl
    · intro hg
      simp [refSingleDay, rawRef, hg]

/-- A small well-typed `current` object used to instantiate the C1 witness:
temperature and pressure present, everything else (including `wind_gust`)
absent. -/
def cW : List (String × Json) := [("temp", .num 50), ("pressure", .num 1000)]

/-- Payload for the current-weather extractor: `{"current": {...}}`. -/
def payloadW : Json := .obj [("current", .obj cW)]

/-- Payload for the single-day extractor: `{"data": [{...}]}`. -/
def payloadSDW : Json := .obj [("data", .arr [.obj cW])]

/-- C1 witness: the amended theorem applied to the concrete payloads. -/
theorem C1_extraction_fallbacks_witness :
    (extract_current_weather_vars rdFnsW payloadW =
        .ok (refCurrent rdFnsW cW) ∧
      (cW.lookup "wind_gust" = none →
        (refCurrent rdFnsW cW).gust = .num 0)) ∧
    (extract_single_day_weather_vars rdFnsW payloadSDW =
        .ok (refSingleDay rdFnsW cW) ∧
      (cW.lookup "wind_gust" = none →
        (refSingleDay rdFnsW cW).gust = .num 0)) :=
  ⟨C1_extraction_fallbacks_amended.1 rdFnsW payloadW cW
      rfl rfl rfl rfl rfl rfl rfl rfl rfl,
   C1_extraction_fallbacks_amended.2 rdFnsW payloadSDW cW []
      rfl rfl rfl rfl rfl rfl rfl rfl rfl⟩

/-! ## Claim C8 — shape of the per-day forecast list -/

/-- C8: for every per-day payload object (whatever keys are present, with
`temp` and `pop` well-shaped when they are), `extract_daily_data` seeded
with the day label returns exactly the 9-element list — label, summary, min
temp, max temp, humidity, wind speed, pop·100, rain, snow — so
`print_forecast`'s positional reads `i[0]`…`i[8]` are always in bounds. -/
theorem C8_daily_list_shape (c : List (String × Json)) (lbl : Json)
    (htemp : tempOk c = true) (hpop : popOk c = true) :
    extract_daily_data (.obj c) [lbl] = .ok (lbl :: refDaily c) ∧
      (lbl :: refDaily c).length = 9 ∧
      ∀ i : ℕ, i ≤ 8 → ((lbl :: refDaily c)[i]?).isSome = true := by
  refine ⟨?_, rfl, ?_⟩
  · unfold extract_daily_data
    rw [rawField_obj c "summary" (.str "--"),
        tempPath_obj c "min" htemp,
        tempPath_obj c "max" htemp,
        rawField_obj c "humidity" (.num 0),
        rawField_obj c "wind_speed" (.num 0),
        popPath_obj c hpop,
        rawField_obj c "rain" (.num 0),
        rawField_obj c "snow" (.num 0)]
    rfl
  · intro i hi
    interval_cases i <;> rfl

/-- C8 witness: the shape theorem at a payload containing only `humidity`. -/
theorem C8_daily_list_shape_witness :
    extract_daily_data (.obj [("humidity", .num 40)]) [.str "Today"] =
        .ok (.str "Today" :: refDaily [("humidity", .num 40)]) ∧
      (Json.str "Today" :: refDaily [("humidity", .num 40)]).length = 9 ∧
      ∀ i : ℕ, i ≤ 8 →
        (((Json.str "Today" :: refDaily [("humidity", .num 40)])[i]?).isSome
          = true) :=
  C8_daily_list_shape [("humidity", .num 40)] (.str "Today") rfl rfl

/-! ## Claim C2 — HTTP status handling -/

/-- A syntactically valid reverse-geocoding body. -/
def geoBodyW : Json :=
  .arr [.obj [("name", .str "Reston"), ("state", .str "Virginia")]]

/-- C2 counterexample: not every upstream request exits on a non-success
status.  `get_location` (reverse geocoding, weather.py line 2031) never
consults `r.status_code`: on a status-500 response it still parses the body
and returns the city/state to the caller — no message, no exit, body fully
processed. -/
theorem C2_geocode_ignores_status :
    get_location ⟨500, geoBodyW⟩ =
      .ok (.ok (.str "Reston", .str "Virginia")) := by
  rfl

/-- C2 (amended): the one-call, time-machine and day-summary fetchers do
print a message and exit immediately on any non-200 status, before touching
the body; the forward/reverse geocoding fetchers, however, never consult the
status — their result is a function of the body alone (they print and exit
only when the parsed body lacks the expected fields). -/
theorem C2_status_handling_amended :
    (∀ resp : HttpResp, resp.status ≠ 200 →
       download_data resp = .exit unreachableMsg ∧
       get_single_day_data resp = .exit unreachableMsg ∧
       day_summary_fetch resp = .exit unreachableMsg) ∧
    (∀ (s s' : ℕ) (body : Json),
       get_location ⟨s, body⟩ = get_location ⟨s', body⟩) ∧
    (∀ (s s' : ℕ) (body : Json) (st : String),
       get_lat_long ⟨s, body⟩ st = get_lat_long ⟨s', body⟩ st) := by
  refine ⟨?_, ?_, ?_⟩
  · intro resp h
    exact ⟨by simp [download_data, h], by simp [get_single_day_data, h],
           by simp [day_summary_fetch, h]⟩
  · intro s s' body
    rfl
  · intro s s' body st
    rfl

/-- C2 witness: the status-exit part of the amendment at a concrete 500
response. -/
theorem C2_status_handling_witness :
    download_data ⟨500, .null⟩ = .exit unreachableMsg ∧
      get_single_day_data ⟨500, .null⟩ = .exit unreachableMsg ∧
      day_summary_fetch ⟨500, .null⟩ = .exit unreachableMsg :=
  C2_status_handling_amended.1 ⟨500, .null⟩ (by decide)

/-! ## Claim C3 — coordinate validation -/

/-- C3 counterexample: not every command validates.  The `coords` command
never calls `coord_arguments_ok` — with latitude 91 (which the check itself
rejects) it still issues the reverse-geocoding network request and prints no
validation message. -/
theorem C3_coords_skips_validation :
    coord_arguments_ok (.float 91) (.float 0) = false ∧
      coords_cmd (.float 91) (.float 0) =
        [.fetch "api.openweathermap.org/geo/1.0/reverse", .report] := by
  exact ⟨by decide, rfl⟩

/-- C3 (amended): `coord_arguments_ok` returns true exactly for a pair of
floats within ±90/±180 (false for every out-of-range or non-float input),
and the three commands that consult it — hourly-forecast, rain-forecast and
alerts — print the descriptive message and make no network call when it
fails; the remaining coordinate-taking commands (e.g. `coords`,
`daily-summary`) never consult it and proceed to a network call. -/
theorem C3_coord_validation_amended :
    (∀ lat lon : PyVal,
      coord_arguments_ok lat lon = true ↔
        ∃ qla qlo : ℚ, lat = .float qla ∧ lon = .float qlo ∧
          -90 ≤ qla ∧ qla ≤ 90 ∧ -180 ≤ qlo ∧ qlo ≤ 180) ∧
    (∀ lat lon : PyVal, coord_arguments_ok lat lon = false →
      hourly_forecast_cmd lat lon = [.print coordErrMsg] ∧
      rain_forecast_cmd lat lon = [.print coordErrMsg] ∧
      alerts_cmd lat lon = [.print coordErrMsg] ∧
      ∀ url : String, Act.fetch url ∉ hourly_forecast_cmd lat lon) := by
  constructor
  · intro lat lon
    cases lat with
    | float qla =>
        cases lon with
        | float qlo =>
            simp only [coord_arguments_ok, Bool.and_eq_true, decide_eq_true_eq]
            constructor
            · rintro ⟨⟨⟨h1, h2⟩, h3⟩, h4⟩
              exact ⟨qla, qlo, rfl, rfl, h1, h2, h3, h4⟩
            · rintro ⟨a, b, ha, hb, h1, h2, h3, h4⟩
              cases ha
              cases hb
              exact ⟨⟨⟨h1, h2⟩, h3⟩, h4⟩
        | int n => simp [coord_arguments_ok]
        | str s => simp [coord_arguments_ok]
        | pynone => simp [coord_arguments_ok]
    | int n => simp [coord_arguments_ok]
    | str s => simp [coord_arguments_ok]
    | pynone => simp [coord_arguments_ok]
  · intro lat lon h
    refine ⟨?_, ?_, ?_, ?_⟩
    · simp [hourly_forecast_cmd, h]
    · simp [rain_forecast_cmd, h]
    · simp [alerts_cmd, h]
    · intro url
      simp [hourly_forecast_cmd, h]

/-- C3 witness: the validating commands at latitude 91 — error message
printed, no fetch in the trace. -/
theorem C3_coord_validation_witness :
    hourly_forecast_cmd (.float 91) (.float 0) = [.print coordErrMsg] ∧
      rain_forecast_cmd (.float 91) (.float 0) = [.print coordErrMsg] ∧
      alerts_cmd (.float 91) (.float 0) = [.print coordErrMsg] ∧
      ∀ url : String,
        Act.fetch url ∉ hourly_forecast_cmd (.float 91) (.float 0) :=
  C3_coord_validation_amended.2 (.float 91) (.float 0) (by decide)

/-! ## Splitting lemmas for the date parser -/

theorem pysplitAux_no_sep (sep : Char) (xs : List Char) :
    ∀ acc : List Char, sep ∉ xs →
      pysplitAux sep xs acc = [acc.reverse ++ xs] := by
  induction xs with
  | nil => intro acc _; simp [pysplitAux]
  | cons c rest ih =>
      intro acc h
      have hc : ¬c = sep := fun e => h (by simp [e])
      rw [pysplitAux, if_neg hc, ih (c :: acc) (fun hm => h (by simp [hm]))]
      simp

theorem pysplitAux_append (sep : Char) (xs ys : List Char) :
    ∀ acc : List Char, sep ∉ xs →
      pysplitAux sep (xs ++ sep :: ys) acc =
        (acc.reverse ++ xs) :: pysplitAux sep ys [] := by
  induction xs with
  | nil => intro acc _; simp [pysplitAux]
  | cons c rest ih =>
      intro acc h
      have hc : ¬c = sep := fun e => h (by simp [e])
      rw [List.cons_append, pysplitAux, if_neg hc,
          ih (c :: acc) (fun hm => h (by simp [hm]))]
      simp

theorem pysplit_no_sep (sep : Char) (xs : List Char) (h : sep ∉ xs) :
    pysplit sep xs = [xs] := by
  unfold pysplit
  rw [pysplitAux_no_sep sep xs [] h]
  rfl

theorem pysplit_append (sep : Char) (xs ys : List Char) (h : sep ∉ xs) :
    pysplit sep (xs ++ sep :: ys) = xs :: pysplit sep ys := by
  unfold pysplit
  rw [pysplitAux_append sep xs ys [] h]
  rfl

theorem parse_datestr_one {s : String} {d : List Char}
    (h : pysplit ' ' s.data = [d]) :
    parse_datestr s = parseDateOnly d := by
  unfold parse_datestr
  rw [h]

theorem parse_datestr_two {s : String} {d t : List Char}
    (h : pysplit ' ' s.data = [d, t]) :
    parse_datestr s = parseDateTime d t := by
  unfold parse_datestr
  rw [h]

/-! ## Claim C4 — date strings without a time component -/

/-- C4 counterexample: `"2023-3-1"` has no time-of-day component, but in the
point-in-time (`meteostat single-day`) normalization it yields **midnight**,
not noon: the noon rewrite (weather.py line 521) fires only on strings of
length exactly 10, and `"2023-3-1"` has length 8. -/
theorem C4_short_date_not_noon :
    (datestr_to_tzdatetime (single_day_normalize "2023-3-1")).map
        (fun t => t.dt.hour) = some 0 ∧
      (datestr_to_tzdatetime (single_day_normalize "2023-3-1")).map
        (fun t => t.dt.hour) ≠ some 12 := by
  exact ⟨rfl, by decide⟩

/-- C4 (amended): a date-only string is treated as noon under the single-day
normalization only when it has exactly 10 characters (the `len(date) == 10`
test), in which case `" 12:00"` is appended and parsing yields noon of that
date in the default timezone; in every other context (and for date-only
strings of any other length) a date string lacking a time-of-day component
parses to midnight of that date in the default timezone. -/
theorem C4_date_normalization_amended :
    (∀ (s : String) (y m d : ℕ),
      ' ' ∉ s.data → s.length = 10 →
      parse_datestr s = some ⟨y, m, d, 0, 0⟩ →
      datestr_to_tzdatetime (single_day_normalize s) =
        some ⟨⟨y, m, d, 12, 0⟩, DEFAULT_TZ⟩) ∧
    (∀ (s : String) (t : NaiveDT),
      ' ' ∉ s.data →
      parse_datestr s = some t →
      datestr_to_tzdatetime s =
        some ⟨⟨t.year, t.month, t.day, 0, 0⟩, DEFAULT_TZ⟩) := by
  constructor
  · intro s y m d hsp hlen hp
    rw [parse_datestr_one (pysplit_no_sep ' ' s.data hsp)] at hp
    unfold single_day_normalize
    rw [if_pos hlen]
    unfold datestr_to_tzdatetime datestr_to_tzdatetime_run
    have hdata : (s ++ " 12:00").data = s.data ++ ' ' :: "12:00".data := by
      rw [String.data_append]
    have hsplit : pysplit ' ' (s ++ " 12:00").data =
        [s.data, "12:00".data] := by
      rw [hdata, pysplit_append ' ' s.data "12:00".data hsp,
          pysplit_no_sep ' ' "12:00".data (by decide)]
    rw [parse_datestr_two hsplit]
    unfold parseDateOnly at hp
    unfold parseDateTime
    cases hy : parseYMD s.data with
    | none => rw [hy] at hp; exact absurd hp (by simp)
    | some ymd =>
        obtain ⟨a, b, c⟩ := ymd
        rw [hy] at hp
        have hhm : parseHM "12:00".data = some (12, 0) := by decide
        rw [hhm]
        simp only [Option.some.injEq, NaiveDT.mk.injEq] at hp
        obtain ⟨rfl, rfl, rfl, -, -⟩ := hp
        rfl
  · intro s t hsp hp
    unfold datestr_to_tzdatetime datestr_to_tzdatetime_run
    rw [hp]
    rw [parse_datestr_one (pysplit_no_sep ' ' s.data hsp)] at hp
    unfold parseDateOnly at hp
    cases hy : parseYMD s.data with
    | none => rw [hy] at hp; exact absurd hp (by simp)
    | some ymd =>
        obtain ⟨a, b, c⟩ := ymd
        rw [hy] at hp
        simp only [Option.some.injEq] at hp
        subst hp
        rfl

/-- C4 witness: both halves of the amendment at `"2023-03-01"` — noon after
single-day normalization, midnight as parsed for a range query. -/
theorem C4_date_normalization_witness :
    (datestr_to_tzdatetime (single_day_normalize "2023-03-01") =
      some ⟨⟨2023, 3, 1, 12, 0⟩, DEFAULT_TZ⟩) ∧
    (datestr_to_tzdatetime "2023-03-01" =
      some ⟨⟨(⟨2023, 3, 1, 0, 0⟩ : NaiveDT).year,
             (⟨2023, 3, 1, 0, 0⟩ : NaiveDT).month,
             (⟨2023, 3, 1, 0, 0⟩ : NaiveDT).day, 0, 0⟩, DEFAULT_TZ⟩) :=
  ⟨C4_date_normalization_amended.1 "2023-03-01" 2023 3 1
      (by decide) rfl (by decide),
   C4_date_normalization_amended.2 "2023-03-01" ⟨2023, 3, 1, 0, 0⟩
      (by decide) (by decide)⟩

/-! ## Claim C7 — unparseable date input -/

/-- C7 counterexample: for an unparseable date, the `ParserError` never
reaches the caller.  `datestr_to_tzdatetime` catches it internally, prints
its own message, and returns `None`; `single_day` then feeds `None` to
`datetime_to_ts`, which raises an uncaught `AttributeError`
(`None.tzinfo`). -/
theorem C7_parser_error_not_propagated :
    single_day_date_step "hello" =
      (["Cannot parse a string that is not a date: hello"],
        .error .attributeError) := by
  rfl

/-- C7 (amended): for every input the date parser rejects, the failure is
caught inside `datestr_to_tzdatetime`, which reports the unparseable input
to the user and returns `None`; the caller does not handle the failure —
`single_day` then terminates with an uncaught `AttributeError`.  The input
is never retried and no weather result is produced. -/
theorem C7_unparseable_terminal_amended :
    ∀ s : String, parse_datestr (single_day_normalize s) = none →
      single_day_date_step s =
        ([cannotParseMsg (single_day_normalize s)], .error .attributeError) := by
  intro s h
  unfold single_day_date_step datestr_to_tzdatetime_run
  simp [h]

/-- C7 witness: the amendment at the concrete input `"gibberish"`. -/
theorem C7_unparseable_terminal_witness :
    single_day_date_step "gibberish" =
      ([cannotParseMsg (single_day_normalize "gibberish")],
        .error .attributeError) :=
  C7_unparseable_terminal_amended "gibberish" (by decide)

/-! ## Claim C5 — timestamps and the round trip -/

/-- C5: for timezone-aware datetimes, `datetime_to_ts` is the UTC
epoch-seconds value of the instant — it ignores the `source_timezone`
argument, and re-displaying the value in any timezone
(`change_timezones`) leaves the timestamp unchanged; and converting the
timestamp back with `ts_to_datetime` in a timezone that assigns the
datetime's own offset at that instant returns the original wall-clock
datetime exactly (in particular, to the minute). -/
theorem C5_timestamp_roundtrip :
    (∀ (dt : PyDateTime) (off : ℤ) (tzA tzB : Timezone),
      dt.tzinfo = some off →
      datetime_to_ts dt tzA = datetime_to_ts dt tzB) ∧
    (∀ (dt : PyDateTime) (off : ℤ) (srcTz dispTz anyTz : Timezone),
      dt.tzinfo = some off →
      datetime_to_ts (change_timezones dt srcTz dispTz) anyTz =
        datetime_to_ts dt srcTz) ∧
    (∀ (dt : PyDateTime) (off : ℤ) (tz anyTz : Timezone),
      dt.tzinfo = some off →
      tz.offsetAt (datetime_to_ts dt anyTz) = off →
      ts_to_datetime (datetime_to_ts dt anyTz) tz = dt) := by
  refine ⟨?_, ?_, ?_⟩
  · intro dt off tzA tzB h
    obtain ⟨wall, tzi⟩ := dt
    simp only at h
    subst h
    rfl
  · intro dt off srcTz dispTz anyTz h
    obtain ⟨wall, tzi⟩ := dt
    simp only at h
    subst h
    simp [change_timezones, datetime_to_ts, ts_to_datetime]
  · intro dt off tz anyTz h hoff
    obtain ⟨wall, tzi⟩ := dt
    simp only at h
    subst h
    have hoff2 : tz.offsetAt (wall - off) = off := hoff
    show (⟨wall - off + tz.offsetAt (wall - off),
            some (tz.offsetAt (wall - off))⟩ : PyDateTime) =
         ⟨wall, some off⟩
    rw [hoff2]
    have hw : wall - off + off = wall := by omega
    rw [hw]

/-- A fixed-offset model of `US/Eastern` in summer (EDT, UTC−4h), used only
to instantiate the C5 witness. -/
def edtFixed : Timezone := ⟨fun _ => -14400, fun _ => -14400⟩

/-- C5 witness: the three parts applied to the docstring example
`datetime(2023, 3, 19, 18, 36, tzinfo=US/Eastern)` (timestamp
1679265360). -/
theorem C5_timestamp_roundtrip_witness :
    datetime_to_ts ⟨1679250960, some (-14400)⟩ edtFixed =
        datetime_to_ts ⟨1679250960, some (-14400)⟩ edtFixed ∧
      datetime_to_ts
          (change_timezones ⟨1679250960, some (-14400)⟩ edtFixed edtFixed)
          edtFixed =
        datetime_to_ts ⟨1679250960, some (-14400)⟩ edtFixed ∧
      ts_to_datetime (datetime_to_ts ⟨1679250960, some (-14400)⟩ edtFixed)
          edtFixed =
        ⟨1679250960, some (-14400)⟩ :=
  ⟨C5_timestamp_roundtrip.1 ⟨1679250960, some (-14400)⟩ (-14400)
      edtFixed edtFixed rfl,
   C5_timestamp_roundtrip.2.1 ⟨1679250960, some (-14400)⟩ (-14400)
      edtFixed edtFixed edtFixed rfl,
   C5_timestamp_roundtrip.2.2 ⟨1679250960, some (-14400)⟩ (-14400)
      edtFixed edtFixed rfl rfl⟩

/-! ## Claim C6 — wind direction text -/

/-- C6: `wind_direction_txt` returns the compass text at index
`round(degrees/45) mod 8` of the eight-point list; the index is always in
bounds (so the `getD` default is never taken), and in particular 0° is
"north", 44° rounds up to "north east", and 360° wraps around to
"north". -/
theorem C6_wind_direction :
    (∀ deg : ℚ,
      (pyRound (deg / 45) % 8).toNat < directions.length ∧
      wind_direction_txt deg =
        directions.getD ((pyRound (deg / 45) % 8).toNat) "") ∧
    wind_direction_txt 0 = "north" ∧
    wind_direction_txt 44 = "north east" ∧
    wind_direction_txt 360 = "north" := by
  refine ⟨fun deg => ⟨?_, rfl⟩, ?_, ?_, ?_⟩
  · have h1 : 0 ≤ pyRound (deg / 45) % 8 :=
      Int.emod_nonneg _ (by norm_num)
    have h2 : pyRound (deg / 45) % 8 < 8 :=
      Int.emod_lt_of_pos _ (by norm_num)
    have h3 : directions.length = 8 := rfl
    omega
  · have h0 : pyRound ((0 : ℚ) / 45) = 0 := by
      unfold pyRound
      norm_num
    unfold wind_direction_txt
    rw [h0]
    rfl
  · have h44 : pyRound ((44 : ℚ) / 45) = 1 := by
      unfold pyRound
      have hf : ⌊(44 : ℚ) / 45⌋ = 0 := by
        rw [Int.floor_eq_zero_iff]
        constructor <;> norm_num
      rw [hf]
      norm_num
    unfold wind_direction_txt
    rw [h44]
    rfl
  · have h360 : pyRound ((360 : ℚ) / 45) = 8 := by
      unfold pyRound
      have hf : ⌊(360 : ℚ) / 45⌋ = 8 := by norm_num
      rw [hf]
      norm_num
    unfold wind_direction_txt
    rw [h360]
    rfl

/-! ## Claim C9 — the double pressure conversion -/

/-- C9: the hPa→mmHg factor is applied twice — once during extraction
(`convert_pressure(data['current']['pressure'])`) and a second time inside
both print functions (`pressure_mmhg = convert_pressure(pressure)`) — so
the value displayed to one decimal is `p * 0.750062 * 0.750062`, and for
any nonzero payload pressure it differs from the single conversion
`p * 0.750062`. -/
theorem C9_double_pressure_conversion :
    (∀ (p : ℚ) (rd : RdFns),
      (extract_current_weather_vars rd
          (Json.obj [("current", Json.obj [("pressure", Json.num p)])])).map
        CurrentVars.pressure = .ok (convert_pressure p)) ∧
    (∀ p : ℚ,
      print_current_weather_pressure_mmhg (convert_pressure p) =
          p * (750062 / 1000000) * (750062 / 1000000) ∧
        print_single_day_pressure_mmhg (convert_pressure p) =
          p * (750062 / 1000000) * (750062 / 1000000) ∧
        round1 (print_current_weather_pressure_mmhg (convert_pressure p)) =
          round1 (p * (750062 / 1000000) * (750062 / 1000000))) ∧
    (∀ p : ℚ, p ≠ 0 →
      print_current_weather_pressure_mmhg (convert_pressure p) ≠
        convert_pressure p) := by
  refine ⟨?_, ?_, ?_⟩
  · intro p rd
    rfl
  · intro p
    refine ⟨?_, ?_, rfl⟩
    · unfold print_current_weather_pressure_mmhg convert_pressure
      ring
    · unfold print_single_day_pressure_mmhg convert_pressure
      ring
  · intro p hp h
    unfold print_current_weather_pressure_mmhg convert_pressure at h
    have h2 : p * ((750062 : ℚ) / 1000000 * (750062 / 1000000)) =
        p * ((750062 : ℚ) / 1000000) := by
      ring_nf
      ring_nf at h
      exact h
    have h3 := mul_left_cancel₀ hp h2
    norm_num at h3

/-- C9 witness: at pressure 1000 hPa the doubly-converted display value
differs from the single conversion. -/
theorem C9_double_pressure_witness :
    print_current_weather_pressure_mmhg (convert_pressure 1000) ≠
      convert_pressure 1000 :=
  C9_double_pressure_conversion.2.2 1000 (by norm_num)

/-! ## Claim C10 — the rain line of `print_single_day` -/

/-- C10: whenever `rain > 0`, the line labelled `rain:` that
`print_single_day` prints interpolates `{snow:0.1f}` — the snow amount,
formatted to one decimal place — and is entirely independent of the rain
value. -/
theorem C10_rain_line_shows_snow :
    (∀ rain snow : ℚ, 0 < rain →
      (print_single_day_precip rain snow).getLast? =
        some (rainLineOf snow)) ∧
    (∀ rain rain' snow : ℚ, 0 < rain → 0 < rain' →
      print_single_day_precip rain snow =
        print_single_day_precip rain' snow) := by
  constructor
  · intro rain snow h
    by_cases hs : 0 < snow <;>
      simp [print_single_day_precip, h, hs, rainLineOf]
  · intro rain rain' snow h h'
    simp [print_single_day_precip, h, h']

/-- C10 witness: with rain 2 mm (and separately 3 mm) and snow 5 mm, the
rain line shows the snow amount and the output ignores the rain value. -/
theorem C10_rain_line_witness :
    (print_single_day_precip 2 5).getLast? = some (rainLineOf 5) ∧
      print_single_day_precip 2 5 = print_single_day_precip 3 5 :=
  ⟨C10_rain_line_shows_snow.1 2 5 (by norm_num),
   C10_rain_line_shows_snow.2 2 3 5 (by norm_num) (by norm_num)⟩

end Weather
